import Mathlib

/-!
# WebSocket inbound transport of the Pocket mediator — shallow embedding

This file embeds the two cooperating types of the mediator's WebSocket
inbound transport (`WsInboundTransport` and `WebSocketTransportSession`)
and proves properties of their behaviour.

The JavaScript source runs on a single-threaded event loop.  The embedding
makes the environment of one `send()` call explicit (socket readiness at
entry, the time at which the peer's pong event is delivered, the write
callback's error and its latency) and computes, by the event-loop schedule
the source induces, the settled outcome of the returned promise together
with the full trace of side effects (ping frames, payload writes with their
times, error logs, uncaught callback exceptions, and which timers and
listeners are still pending afterwards).

The listener (`WsInboundTransport.start`) is embedded as a step function on
an explicit state (the `socketIds` record's keys, the sessions whose close
handler was subscribed, and the sequence of `transportService.removeSession`
calls), driven by `connection` and socket `close` events.  The per-socket
message listener (`listenOnWebSocketMessages`) is embedded as a fold over
the delivered message frames, parameterised by the behaviour of the external
`JSON.parse` + `MessageReceiver.receiveMessage` pipeline on each frame.
-/

/-- `readyState` of a `ws` WebSocket. -/
inductive WsReadyState
  | CONNECTING
  | OPEN
  | CLOSING
  | CLOSED
deriving DecidableEq, Repr

/-- The opaque encrypted envelope (`EncryptedMessage` of `@aries-framework/core`
is a JWE-shaped record with these four fields). -/
structure EncryptedMessage where
  protected_ : String
  iv : String
  ciphertext : String
  tag : String
deriving DecidableEq, Repr

/-- `JSON.stringify` on an `EncryptedMessage`: the serialized byte string the
session hands to `socket.send`. -/
def jsonStringify (m : EncryptedMessage) : String :=
  "\x7b\"protected\":\"" ++ m.protected_ ++ "\",\"iv\":\"" ++ m.iv ++
    "\",\"ciphertext\":\"" ++ m.ciphertext ++ "\",\"tag\":\"" ++ m.tag ++ "\"\x7d"

/-- The session's fixed `type` tag. -/
def sessionType : String := "WebSocket"

/-- The liveness bound of `send()`: `delay(10000, ...)`. -/
def livenessBoundMs : Nat := 10000

/-- Message of the `AriesFrameworkError` thrown when `send()` is called on a
socket that is not open (source: `transport session has been closed.`,
with the session type interpolated in front). -/
def transportClosedMsg : String := sessionType ++ " transport session has been closed."

/-- Message of the `AriesFrameworkError` thrown both by the write-error
callback and by the timeout branch (source: `send message failed.`, with
the session type interpolated in front — the two throw sites use the
identical template). -/
def sendFailedMsg : String := sessionType ++ " send message failed."

/-- Environment of one `send()` call: everything the surrounding socket and
peer decide. -/
structure SendEnv where
  /-- `this.socket.readyState` when `send()` is entered. -/
  readyState : WsReadyState
  /-- Milliseconds after the ping at which the peer's pong event is
  delivered to the socket, `none` when no pong ever arrives. -/
  pongAt : Option Nat
  /-- The error the `socket.send` completion callback reports,
  `none` for a clean write. -/
  writeError : Option String
  /-- Milliseconds between the `socket.send` call and its completion
  callback firing. -/
  writeCallbackDelay : Nat
deriving DecidableEq, Repr

/-- How the promise returned by `send()` ends. -/
inductive SendOutcome
  /-- The promise fulfills: `send()` returns successfully to its caller. -/
  | resolved
  /-- The promise rejects with an `AriesFrameworkError` carrying `msg`. -/
  | rejected (msg : String)
  /-- The promise never settles: the caller awaits forever. -/
  | neverSettles
deriving DecidableEq, Repr

/-- The settled outcome of one `send()` call together with its full
side-effect trace. -/
structure SendResult where
  outcome : SendOutcome
  /-- Time at which the promise settles, `none` when it never does. -/
  outcomeAt : Option Nat
  /-- Ping frames emitted on the socket. -/
  pings : List String
  /-- Payload writes performed on the socket, in order, as (time, bytes) —
  including writes the still-subscribed pong listener performs after the
  promise has settled. -/
  writes : List (Nat × String)
  /-- Exceptions thrown inside the socket callbacks: these unwind into the
  event loop and are never delivered to the caller of `send()`. -/
  uncaughtErrors : List String
  /-- `logger.error` calls, in order. -/
  errorLogs : List String
  /-- Whether a timer started by this call is still pending after every
  event of the call has run. -/
  timerPendingAfter : Bool
  /-- Whether the `once("pong")` listener subscribed by this call is still
  attached after every event of the call has run. -/
  pongListenerAfter : Bool
deriving DecidableEq, Repr

namespace WebSocketTransportSession

/-- `WebSocketTransportSession.send`, scheduled on the event loop.

Source behaviour being embedded, step by step:
* Entry guard: `if (this.socket.readyState !== WebSocket.OPEN) throw` —
  the call rejects at once with `transportClosedMsg`; nothing was pinged,
  written, or subscribed.
* Otherwise `success := false`; a `once("pong")` listener is subscribed
  whose body calls `socket.send(JSON.stringify(encryptedMessage), cb)`;
  `socket.ping("ping")` is emitted; then the code awaits
  `delay(10000, ...)`, whose executor stores `timeoutId := setTimeout(resolve, 10000)`.
* Write callback `cb(error)`: on an error it logs
  `Error sending message: <error>` and throws `sendFailedMsg` — a throw
  inside a socket callback, which unwinds into the event loop and is never
  delivered to the awaiting caller; `success` stays `false` and the timer
  is not cleared.  On a clean write it sets `success := true` and calls
  `clearTimeout(timeoutId)` — cancelling the very timer whose firing is the
  only resolution of the awaited `delay` promise.
* When the 10000 ms timer fires first, the `await` completes with
  `success` still `false`, so the call logs `Error pinging endpoint` and
  throws `sendFailedMsg` (rejecting the promise).  The pong listener is not
  removed on this path: a pong delivered later still fires it, writing the
  payload after the promise has already settled.

The event-loop schedule therefore splits on the pong delivery time `t`
against the bound, and (for a clean write delivered before the bound) on
whether the write callback at `t + writeCallbackDelay` runs before the
timer: if it does, `clearTimeout` cancels the timer and the promise never
settles; if the timer fires first, the call rejects at the bound and the
late callback merely clears an already-fired timer. -/
def send (env : SendEnv) (encryptedMessage : EncryptedMessage) : SendResult :=
  if env.readyState ≠ WsReadyState.OPEN then
    { outcome := .rejected transportClosedMsg, outcomeAt := some 0,
      pings := [], writes := [], uncaughtErrors := [], errorLogs := [],
      timerPendingAfter := false, pongListenerAfter := false }
  else
    match env.pongAt with
    | none =>
      -- No pong ever: the timer fires at the bound with `success = false`;
      -- the `once("pong")` listener is still subscribed afterwards.
      { outcome := .rejected sendFailedMsg, outcomeAt := some livenessBoundMs,
        pings := ["ping"], writes := [], uncaughtErrors := [],
        errorLogs := ["Error pinging endpoint"],
        timerPendingAfter := false, pongListenerAfter := true }
    | some t =>
      if t < livenessBoundMs then
        match env.writeError with
        | some e =>
          -- Pong at `t`, write invoked at `t`, callback reports an error:
          -- the callback logs and throws into the event loop (uncaught);
          -- `success` stays false, the timer is not cleared, and the call
          -- rejects at the bound.  Only the order of the two error logs
          -- depends on whether the callback ran before the timer.
          { outcome := .rejected sendFailedMsg, outcomeAt := some livenessBoundMs,
            pings := ["ping"], writes := [(t, jsonStringify encryptedMessage)],
            uncaughtErrors := [sendFailedMsg],
            errorLogs :=
              if t + env.writeCallbackDelay < livenessBoundMs then
                ["Error sending message: " ++ e, "Error pinging endpoint"]
              else
                ["Error pinging endpoint", "Error sending message: " ++ e],
            timerPendingAfter := false, pongListenerAfter := false }
        | none =>
          if t + env.writeCallbackDelay < livenessBoundMs then
            -- Clean write whose callback runs before the timer: it sets
            -- `success := true` and `clearTimeout` cancels the only timer
            -- that could resolve the awaited `delay` promise — the
            -- promise never settles.
            { outcome := .neverSettles, outcomeAt := none,
              pings := ["ping"], writes := [(t, jsonStringify encryptedMessage)],
              uncaughtErrors := [], errorLogs := [],
              timerPendingAfter := false, pongListenerAfter := false }
          else
            -- Clean write whose callback runs at or after the bound: the
            -- timer fires first with `success` still false, so the call
            -- rejects at the bound; the later callback clears an
            -- already-fired timer.
            { outcome := .rejected sendFailedMsg, outcomeAt := some livenessBoundMs,
              pings := ["ping"], writes := [(t, jsonStringify encryptedMessage)],
              uncaughtErrors := [], errorLogs := ["Error pinging endpoint"],
              timerPendingAfter := false, pongListenerAfter := false }
      else
        -- Pong delivered at or after the bound: the timer fires first and
        -- the call rejects at the bound; the still-subscribed `once`
        -- listener then fires at `t` and writes the payload after the
        -- promise has settled.
        match env.writeError with
        | some e =>
          { outcome := .rejected sendFailedMsg, outcomeAt := some livenessBoundMs,
            pings := ["ping"], writes := [(t, jsonStringify encryptedMessage)],
            uncaughtErrors := [sendFailedMsg],
            errorLogs := ["Error pinging endpoint", "Error sending message: " ++ e],
            timerPendingAfter := false, pongListenerAfter := false }
        | none =>
          { outcome := .rejected sendFailedMsg, outcomeAt := some livenessBoundMs,
            pings := ["ping"], writes := [(t, jsonStringify encryptedMessage)],
            uncaughtErrors := [], errorLogs := ["Error pinging endpoint"],
            timerPendingAfter := false, pongListenerAfter := false }

/-- `WebSocketTransportSession.close`, as a function of the socket's
readiness state: `if (this.socket.readyState === WebSocket.OPEN) this.socket.close()`.
Returns the resulting readiness state (a `ws` `close()` on an open socket
starts the closing handshake, moving `readyState` to `CLOSING`) paired with
whether closure was requested on the socket.  The method body has no throw
site: it completes without error on every state. -/
def close (s : WsReadyState) : WsReadyState × Bool :=
  if s = WsReadyState.OPEN then (WsReadyState.CLOSING, true) else (s, false)

end WebSocketTransportSession

/-- Events driving the listener installed by `WsInboundTransport.start`:
a `connection` event of the socket server (carrying the uuid that
`utils.uuid()` mints for it), or the `close` event of an accepted socket. -/
inductive ListenerEvent
  | connection (socketId : String)
  | socketClose (socketId : String)
deriving DecidableEq, Repr

namespace WsInboundTransport

/-- Observable state of a `WsInboundTransport`: the keys present in its
`socketIds` record (in insertion order), the ids of the sessions it built
(these are exactly the sockets whose `close` handler was subscribed), and
the sequence of `transportService.removeSession(session)` calls it has
made, by session id, in order. -/
structure State where
  socketIds : List String
  sessions : List String
  removeSessionCalls : List String
deriving DecidableEq, Repr

/-- The state before any connection is accepted. -/
def State.init : State := ⟨[], [], []⟩

/-- One event handled by the handlers `start` subscribes.

* `connection socketId`: `if (!this.socketIds[socketId])` — a fresh id is
  saved in the record, a `WebSocketTransportSession` is constructed, the
  message listener and the `close` handler are subscribed; a colliding id
  is logged and ignored (no second session for it).
* `socketClose socketId`: the `close` handler subscribed for that accepted
  socket calls `transportService.removeSession(session)`.  It does not
  touch the `socketIds` record. -/
def step (s : State) : ListenerEvent → State
  | .connection socketId =>
    if socketId ∈ s.socketIds then s
    else
      { s with
        socketIds := s.socketIds ++ [socketId],
        sessions := s.sessions ++ [socketId] }
  | .socketClose socketId =>
    if socketId ∈ s.sessions then
      { s with removeSessionCalls := s.removeSessionCalls ++ [socketId] }
    else s

/-- Run the listener over a sequence of events. -/
def run (s : State) : List ListenerEvent → State
  | [] => s
  | e :: es => run (step s e) es

end WsInboundTransport

/-- Result of `listenOnWebSocketMessages`'s message listener over the frames
delivered on one socket. -/
structure InboundResult where
  /-- Frames the `try` block carried through `JSON.parse` and
  `messageReceiver.receiveMessage` without a throw, in order. -/
  processedFrames : List String
  /-- `logger.error` calls made by the `catch` block, in order. -/
  errorLogs : List String
  /-- Whether the listener tore the connection down (it has no code path
  that closes the socket). -/
  closedByListener : Bool
deriving DecidableEq, Repr

/-- The message listener `listenOnWebSocketMessages` subscribes: for each
delivered frame it tries `messageReceiver.receiveMessage(JSON.parse(event.data), { session })`
and, when that throws, logs `Error processing message: <error>` and
continues; it never closes the socket.  `pipeline` is the behaviour of the
external `JSON.parse` + `MessageReceiver` composition on each frame:
`Except.ok` when the frame parses and processes, `Except.error e` when
either step throws `e`. -/
def listenOnWebSocketMessages (pipeline : String → Except String Unit) :
    List String → InboundResult
  | [] => ⟨[], [], false⟩
  | f :: fs =>
    let rest := listenOnWebSocketMessages pipeline fs
    match pipeline f with
    | .ok _ => { rest with processedFrames := f :: rest.processedFrames }
    | .error e =>
      { rest with errorLogs := ("Error processing message: " ++ e) :: rest.errorLogs }

/-- A concrete envelope used by witnesses. -/
def sampleMsg : EncryptedMessage :=
  { protected_ := "hdr", iv := "iv0", ciphertext := "ct", tag := "tg" }

/-- Claim C1 (code bug): on the path the claim describes — open socket, pong
within the bound, clean payload write — `send()` does not resolve: the write
callback's `clearTimeout` cancels the only timer that could resolve the
awaited `delay` promise, so the promise never settles (and in no environment
whatsoever does `send()` resolve successfully).  Evaluated at the failing
input: socket open, pong at 1 ms, clean write callback 1 ms later — the
payload was handed to the transport, yet the call never returns. -/
theorem send_clean_write_never_settles :
    (∀ (env : SendEnv) (m : EncryptedMessage),
        (WebSocketTransportSession.send env m).outcome ≠ SendOutcome.resolved) ∧
    (WebSocketTransportSession.send
        { readyState := WsReadyState.OPEN, pongAt := some 1,
          writeError := none, writeCallbackDelay := 1 } sampleMsg).outcome =
      SendOutcome.neverSettles ∧
    (WebSocketTransportSession.send
        { readyState := WsReadyState.OPEN, pongAt := some 1,
          writeError := none, writeCallbackDelay := 1 } sampleMsg).writes =
      [(1, jsonStringify sampleMsg)] := by
  refine ⟨?_, rfl, rfl⟩
  intro env m
  unfold WebSocketTransportSession.send
  repeat' split
  all_goals simp

/-- Claim C2: when the pong arrives within the bound but the payload write
reports an error, the promise returned by `send()` rejects with the
`send message failed` error — the failure reaches the caller, it is not
silently swallowed. -/
theorem send_write_error_reported (env : SendEnv) (m : EncryptedMessage)
    (t : Nat) (e : String)
    (hopen : env.readyState = WsReadyState.OPEN)
    (hpong : env.pongAt = some t) (ht : t < livenessBoundMs)
    (herr : env.writeError = some e) :
    (WebSocketTransportSession.send env m).outcome =
      SendOutcome.rejected sendFailedMsg := by
  obtain ⟨rs, pa, we, wd⟩ := env
  cases hopen
  cases hpong
  cases herr
  simp [WebSocketTransportSession.send, ht]

/-- Witness for C2 at a concrete environment. -/
theorem send_write_error_reported_witness :
    (WebSocketTransportSession.send
        { readyState := WsReadyState.OPEN, pongAt := some 5,
          writeError := some "EPIPE", writeCallbackDelay := 1 } sampleMsg).outcome =
      SendOutcome.rejected sendFailedMsg :=
  send_write_error_reported _ sampleMsg 5 "EPIPE" rfl rfl (by decide) rfl

/-- Counterexample to claim C3 as stated: after `send()` fails with the
timeout, the pong subscription has not been cancelled — a pong delivered at
20000 ms (after the 10000 ms bound, hence after the rejection) still fires
the listener, which writes the payload to the socket. -/
theorem late_pong_still_writes_after_failure :
    (WebSocketTransportSession.send
        { readyState := WsReadyState.OPEN, pongAt := some 20000,
          writeError := none, writeCallbackDelay := 0 } sampleMsg).outcome =
      SendOutcome.rejected sendFailedMsg ∧
    (WebSocketTransportSession.send
        { readyState := WsReadyState.OPEN, pongAt := some 20000,
          writeError := none, writeCallbackDelay := 0 } sampleMsg).outcomeAt =
      some livenessBoundMs ∧
    (WebSocketTransportSession.send
        { readyState := WsReadyState.OPEN, pongAt := some 20000,
          writeError := none, writeCallbackDelay := 0 } sampleMsg).writes =
      [(20000, jsonStringify sampleMsg)] :=
  ⟨rfl, rfl, rfl⟩

/-- Amended claim C3: on the timeout path the pong subscription is NOT
cancelled — an acknowledgment arriving after the failure still triggers the
payload write, and when no acknowledgment ever arrives the listener stays
subscribed; the wait timer itself has fired at the bound and does not remain
pending. -/
theorem send_timeout_subscription_not_cancelled (env : SendEnv)
    (m : EncryptedMessage) (hopen : env.readyState = WsReadyState.OPEN) :
    (∀ t, env.pongAt = some t → livenessBoundMs ≤ t →
      (WebSocketTransportSession.send env m).outcome =
        SendOutcome.rejected sendFailedMsg ∧
      (WebSocketTransportSession.send env m).writes = [(t, jsonStringify m)] ∧
      (WebSocketTransportSession.send env m).timerPendingAfter = false) ∧
    (env.pongAt = none →
      (WebSocketTransportSession.send env m).outcome =
        SendOutcome.rejected sendFailedMsg ∧
      (WebSocketTransportSession.send env m).pongListenerAfter = true ∧
      (WebSocketTransportSession.send env m).timerPendingAfter = false) := by
  obtain ⟨rs, pa, we, wd⟩ := env
  cases hopen
  constructor
  · intro t hpong hlate
    cases hpong
    have hnot : ¬ t < livenessBoundMs := Nat.not_lt.mpr hlate
    cases we <;> simp [WebSocketTransportSession.send, hnot]
  · intro hnone
    cases hnone
    simp [WebSocketTransportSession.send]

/-- Witness for the amended C3 at a concrete environment. -/
theorem send_timeout_subscription_not_cancelled_witness :
    (WebSocketTransportSession.send
        { readyState := WsReadyState.OPEN, pongAt := some 12000,
          writeError := none, writeCallbackDelay := 3 } sampleMsg).writes =
      [(12000, jsonStringify sampleMsg)] :=
  ((send_timeout_subscription_not_cancelled
      { readyState := WsReadyState.OPEN, pongAt := some 12000,
        writeError := none, writeCallbackDelay := 3 } sampleMsg rfl).1
    12000 rfl (by decide)).2.1

/-- Claim C4: `send()` on a socket that is not open rejects immediately with
the `transport session has been closed` error, emits no ping and writes no
payload (the whole trace is empty). -/
theorem send_on_closed_socket (env : SendEnv) (m : EncryptedMessage)
    (h : env.readyState ≠ WsReadyState.OPEN) :
    WebSocketTransportSession.send env m =
      { outcome := SendOutcome.rejected transportClosedMsg, outcomeAt := some 0,
        pings := [], writes := [], uncaughtErrors := [], errorLogs := [],
        timerPendingAfter := false, pongListenerAfter := false } := by
  unfold WebSocketTransportSession.send
  rw [if_pos h]

/-- Witness for C4 at a closed socket. -/
theorem send_on_closed_socket_witness :
    WebSocketTransportSession.send
        { readyState := WsReadyState.CLOSED, pongAt := none,
          writeError := none, writeCallbackDelay := 0 } sampleMsg =
      { outcome := SendOutcome.rejected transportClosedMsg, outcomeAt := some 0,
        pings := [], writes := [], uncaughtErrors := [], errorLogs := [],
        timerPendingAfter := false, pongListenerAfter := false } :=
  send_on_closed_socket _ sampleMsg (by decide)

/-- Counterexample to claim C5 as stated: the timeout failure is not an
error distinct from the write-error condition — both throw sites use the
identical `AriesFrameworkError` message.  At a non-responding peer the call
rejects with `sendFailedMsg`; at a peer whose write errors, the caller-visible
rejection and the exception thrown inside the write callback carry the very
same `sendFailedMsg`. -/
theorem timeout_error_indistinct_from_write_error :
    (WebSocketTransportSession.send
        { readyState := WsReadyState.OPEN, pongAt := none,
          writeError := none, writeCallbackDelay := 0 } sampleMsg).outcome =
      SendOutcome.rejected sendFailedMsg ∧
    (WebSocketTransportSession.send
        { readyState := WsReadyState.OPEN, pongAt := some 1,
          writeError := some "EPIPE", writeCallbackDelay := 2 } sampleMsg).outcome =
      SendOutcome.rejected sendFailedMsg ∧
    (WebSocketTransportSession.send
        { readyState := WsReadyState.OPEN, pongAt := some 1,
          writeError := some "EPIPE", writeCallbackDelay := 2 } sampleMsg).uncaughtErrors =
      [sendFailedMsg] :=
  ⟨rfl, rfl, rfl⟩

/-- Amended claim C5: when no acknowledgment arrives within the bound,
`send()` rejects at the bound with the `send message failed` error — the
same `AriesFrameworkError` text as the write-error condition, not a distinct
one — and no payload write occurs before the call fails. -/
theorem send_timeout_no_write_before_failure (env : SendEnv)
    (m : EncryptedMessage) (hopen : env.readyState = WsReadyState.OPEN)
    (hnopong : ∀ t, env.pongAt = some t → livenessBoundMs ≤ t) :
    (WebSocketTransportSession.send env m).outcome =
      SendOutcome.rejected sendFailedMsg ∧
    (WebSocketTransportSession.send env m).outcomeAt = some livenessBoundMs ∧
    ∀ w ∈ (WebSocketTransportSession.send env m).writes, livenessBoundMs ≤ w.1 := by
  obtain ⟨rs, pa, we, wd⟩ := env
  cases hopen
  cases pa with
  | none => simp [WebSocketTransportSession.send]
  | some t =>
    have hlate := hnopong t rfl
    have hnot : ¬ t < livenessBoundMs := Nat.not_lt.mpr hlate
    cases we <;> simp [WebSocketTransportSession.send, hnot, hlate]

/-- Witness for the amended C5 at a non-responding peer. -/
theorem send_timeout_no_write_before_failure_witness :
    (WebSocketTransportSession.send
        { readyState := WsReadyState.OPEN, pongAt := none,
          writeError := none, writeCallbackDelay := 0 } sampleMsg).outcome =
      SendOutcome.rejected sendFailedMsg :=
  (send_timeout_no_write_before_failure
      { readyState := WsReadyState.OPEN, pongAt := none,
        writeError := none, writeCallbackDelay := 0 } sampleMsg rfl
      (fun _ h => nomatch h)).1

/-- Claim C6: when the pong arrives within the bound, the payload is written
exactly once — a single write, whose bytes are exactly the serialized form
of the input envelope — whatever the write callback later reports. -/
theorem send_writes_payload_exactly_once (env : SendEnv) (m : EncryptedMessage)
    (t : Nat) (hopen : env.readyState = WsReadyState.OPEN)
    (hpong : env.pongAt = some t) (ht : t < livenessBoundMs) :
    (WebSocketTransportSession.send env m).writes = [(t, jsonStringify m)] := by
  obtain ⟨rs, pa, we, wd⟩ := env
  cases hopen
  cases hpong
  cases we with
  | none =>
    simp only [WebSocketTransportSession.send]
    rw [if_neg (by simp), if_pos ht]
    split <;> rfl
  | some e => simp [WebSocketTransportSession.send, ht]

/-- Witness for C6 at a concrete environment. -/
theorem send_writes_payload_exactly_once_witness :
    (WebSocketTransportSession.send
        { readyState := WsReadyState.OPEN, pongAt := some 7,
          writeError := none, writeCallbackDelay := 2 } sampleMsg).writes =
      [(7, jsonStringify sampleMsg)] :=
  send_writes_payload_exactly_once _ sampleMsg 7 rfl rfl (by decide)

/-- Counterexample to claim C7 as stated: after accepting connection "a" and
receiving its close event, the registry has been notified exactly once, but
the `socketIds` record still holds the entry for "a" — the close handler
does not remove it from the internal map. -/
theorem close_leaves_socket_map_entry :
    (WsInboundTransport.run WsInboundTransport.State.init
        [ListenerEvent.connection "a", ListenerEvent.socketClose "a"]).removeSessionCalls =
      ["a"] ∧
    (WsInboundTransport.run WsInboundTransport.State.init
        [ListenerEvent.connection "a", ListenerEvent.socketClose "a"]).socketIds =
      ["a"] := by
  constructor <;> rfl

/-- Amended claim C7: for every close event of an accepted connection the
listener notifies the external registry via `removeSession` exactly once for
that session, and changes nothing else — in particular it does not remove
the session's entry from its internal id-to-socket map. -/
theorem close_event_notifies_registry_once (s : WsInboundTransport.State)
    (sid : String) (h : sid ∈ s.sessions) :
    WsInboundTransport.step s (ListenerEvent.socketClose sid) =
      { s with removeSessionCalls := s.removeSessionCalls ++ [sid] } := by
  simp only [WsInboundTransport.step]
  rw [if_pos h]

/-- Witness for the amended C7 at a concrete listener state. -/
theorem close_event_notifies_registry_once_witness :
    WsInboundTransport.step ⟨["a"], ["a"], []⟩ (ListenerEvent.socketClose "a") =
      ⟨["a"], ["a"], ["a"]⟩ :=
  close_event_notifies_registry_once ⟨["a"], ["a"], []⟩ "a" (by simp)

/-- Claim C8: over any sequence of inbound frames and any behaviour of the
parse-and-process pipeline, the listener never tears the connection down,
forwards exactly the frames whose processing does not throw (including all
those arriving after a failing frame), and logs one error per throwing
frame. -/
theorem inbound_failures_logged_and_skipped
    (pipeline : String → Except String Unit) (frames : List String) :
    (listenOnWebSocketMessages pipeline frames).closedByListener = false ∧
    (listenOnWebSocketMessages pipeline frames).processedFrames =
      frames.filter (fun f => match pipeline f with
        | .ok _ => true
        | .error _ => false) ∧
    (listenOnWebSocketMessages pipeline frames).errorLogs =
      frames.filterMap (fun f => match pipeline f with
        | .ok _ => none
        | .error e => some ("Error processing message: " ++ e)) := by
  induction frames with
  | nil => exact ⟨rfl, rfl, rfl⟩
  | cons f fs ih =>
    obtain ⟨h1, h2, h3⟩ := ih
    refine ⟨?_, ?_, ?_⟩ <;>
      · simp only [listenOnWebSocketMessages, List.filter_cons, List.filterMap_cons]
        cases hp : pipeline f <;> simp [hp, h1, h2, h3]

/-- Claim C9: `close()` is idempotent — a second `close()` changes nothing
and requests no further closure, and a `close()` on a socket that is not
open is a no-op that completes without error. -/
theorem session_close_idempotent (s : WsReadyState) :
    WebSocketTransportSession.close (WebSocketTransportSession.close s).1 =
      ((WebSocketTransportSession.close s).1, false) ∧
    (s ≠ WsReadyState.OPEN → WebSocketTransportSession.close s = (s, false)) := by
  cases s <;> refine ⟨rfl, fun h => ?_⟩
  · rfl
  · exact absurd rfl h
  · rfl
  · rfl

/-- Witness for C9 at a closed socket. -/
theorem session_close_idempotent_witness :
    WebSocketTransportSession.close WsReadyState.CLOSED =
      (WsReadyState.CLOSED, false) :=
  (session_close_idempotent WsReadyState.CLOSED).2 (by decide)

/-- Claim C10: the listener's `socketIds` map only ever grows — every run
extends it on the right (no event removes an entry), and a socket close
event leaves it exactly unchanged, so the record of an accepted connection
persists after the connection has closed. -/
theorem socket_map_only_grows (s : WsInboundTransport.State)
    (evs : List ListenerEvent) :
    (∃ tail, (WsInboundTransport.run s evs).socketIds = s.socketIds ++ tail) ∧
    ∀ sid, (WsInboundTransport.step s (ListenerEvent.socketClose sid)).socketIds =
      s.socketIds := by
  constructor
  · induction evs generalizing s with
    | nil => exact ⟨[], (List.append_nil _).symm⟩
    | cons e es ih =>
      obtain ⟨t2, h2⟩ := ih (WsInboundTransport.step s e)
      have h1 : ∃ t1, (WsInboundTransport.step s e).socketIds = s.socketIds ++ t1 := by
        cases e with
        | connection sid =>
          simp only [WsInboundTransport.step]
          split
          · exact ⟨[], (List.append_nil _).symm⟩
          · exact ⟨[sid], rfl⟩
        | socketClose sid =>
          simp only [WsInboundTransport.step]
          split <;> exact ⟨[], (List.append_nil _).symm⟩
      obtain ⟨t1, h1⟩ := h1
      refine ⟨t1 ++ t2, ?_⟩
      show (WsInboundTransport.run (WsInboundTransport.step s e) es).socketIds = _
      rw [h2, h1, List.append_assoc]
  · intro sid
    simp only [WsInboundTransport.step]
    split <;> rfl
